import Mathlib

/-!
Verification development for the Google Photos Takeout metadata processor
(src/process_google_takeout.py). The Python source is shallowly embedded:
JSON sidecar values become explicit optional fields, Python floats become
rationals (all operations performed on them by the source — comparison with
zero, sign tests, absolute value — are exact), the filesystem becomes an
explicit list of (path, mtime) records, and the external exiftool process
becomes an environment oracle giving each invocation's exit status.
-/

/-! ## String helpers (Python primitives used by the source) -/

/-- Model of Python str.lower(): lowercase every character. -/
def lowerStr (s : String) : String := String.mk (s.data.map Char.toLower)

/-- Lexicographic strict comparison on character lists by code point.
Models Python's string ordering, used for sorting discovered paths. -/
def strLtb : List Char → List Char → Bool
  | [], [] => false
  | [], _ :: _ => true
  | _ :: _, [] => false
  | a :: as, b :: bs =>
    if a.val < b.val then true else if b.val < a.val then false else strLtb as bs

/-- Index of the last '.' in a character list, if any. -/
def lastDot : List Char → Option Nat
  | [] => none
  | c :: cs =>
    match lastDot cs with
    | some i => some (i + 1)
    | none => if c = '.' then some 0 else none

/-- Model of pathlib's Path.suffix on a filename: the substring from the last
dot onward, empty when the name has no dot or starts with its only dot. -/
def pySuffix (name : String) : String :=
  match lastDot name.data with
  | some i => if 0 < i then String.mk (name.data.drop i) else ""
  | none => ""

/-- Render a natural number in decimal, left-padded with zeros to width 2
(strftime's %m, %d, %H, %M, %S). -/
def pad2 (n : Nat) : String :=
  if n < 10 then "0" ++ n.repr else n.repr

/-- Render a natural number in decimal, left-padded with zeros to width 4
(strftime's %Y for the years exercised here). -/
def pad4 (n : Nat) : String :=
  if n < 10 then "000" ++ n.repr
  else if n < 100 then "00" ++ n.repr
  else if n < 1000 then "0" ++ n.repr
  else n.repr

/-- Convert a count of days since 1970-01-01 to a (year, month, day) civil
date, proleptic Gregorian (the standard era-based conversion algorithm). -/
def civilFromDays (z0 : Int) : Int × Int × Int :=
  let z := z0 + 719468
  let era := z.ediv 146097
  let doe := z - era * 146097
  let yoe := (doe - doe.ediv 1460 + doe.ediv 36524 - doe.ediv 146096).ediv 365
  let y := yoe + era * 400
  let doy := doe - (365 * yoe + yoe.ediv 4 - yoe.ediv 100)
  let mp := (5 * doy + 2).ediv 153
  let d := doy - (153 * mp + 2).ediv 5 + 1
  let m := mp + (if mp < 10 then 3 else -9)
  (y + (if m ≤ 2 then 1 else 0), m, d)

/-- Model of timestamp_to_exif_format (source lines 115-118): convert epoch
seconds to a "YYYY:MM:DD HH:MM:SS" string. The source calls
datetime.fromtimestamp, which uses the host's local timezone (the spec flags
this as unintentionally locale-dependent); the model fixes the stated UTC
assumption. The string-encoded timestamp is modelled as its integer value. -/
def timestamp_to_exif_format (ts : Int) : String :=
  let days := ts.ediv 86400
  let secs := (ts.emod 86400).toNat
  match civilFromDays days with
  | (y, m, d) =>
    pad4 y.toNat ++ ":" ++ pad2 m.toNat ++ ":" ++ pad2 d.toNat ++ " " ++
    pad2 (secs / 3600) ++ ":" ++ pad2 (secs % 3600 / 60) ++ ":" ++ pad2 (secs % 60)

/-- Model of Python str() on the float values interpolated into exiftool
arguments. JSON numbers are modelled as rationals; an integral value renders
as Python renders the corresponding float ("37.0"). Non-integral values are
rendered as a fraction — the exact decimal rendering of Python floats is not
modelled, and no claim depends on it. -/
def pyFloatStr (q : ℚ) : String :=
  (if q.num < 0 then "-" else "") ++
  (if q.den = 1 then q.num.natAbs.repr ++ ".0"
   else q.num.natAbs.repr ++ "/" ++ q.den.repr)

/-! ## Data model -/

/-- One geo object from a sidecar (geoDataExif or geoData): the three consumed
keys, each possibly absent, plus whether the JSON object carries any other
keys (which only matters for Python's truthiness test on the dict). -/
structure GeoBlock where
  latitude : Option ℚ := none
  longitude : Option ℚ := none
  altitude : Option ℚ := none
  extraKeys : Bool := false
deriving DecidableEq

/-- Python truthiness of a geo dict: true iff the dict is non-empty. -/
def geoTruthy (g : GeoBlock) : Bool :=
  g.latitude.isSome || g.longitude.isSome || g.altitude.isSome || g.extraKeys

/-- Parsed sidecar JSON, restricted to the fields the source consumes.
photoTakenTime is the string-encoded epoch value of photoTakenTime.timestamp
when that nested field is present; geoDataExif / geoData are none when the key
is absent or null. -/
structure Sidecar where
  photoTakenTime : Option Int := none
  geoDataExif : Option GeoBlock := none
  geoData : Option GeoBlock := none
  description : Option String := none
deriving DecidableEq

/-- Result of reading and json.load-ing a sidecar file: either a parse
failure or the parsed data. -/
inductive SidecarJson where
  | malformed
  | parsed (data : Sidecar)
deriving DecidableEq

/-- The metadata dict built by extract_metadata; each Python key becomes an
optional field. -/
structure ExtractedMetadata where
  datetime : Option String := none
  timestamp : Option Int := none
  latitude : Option ℚ := none
  longitude : Option ℚ := none
  altitude : Option ℚ := none
  description : Option String := none
deriving DecidableEq

/-- Python truthiness of the metadata dict: non-empty iff some key is set. -/
def ExtractedMetadata.nonEmpty (m : ExtractedMetadata) : Bool :=
  m.datetime.isSome || m.timestamp.isSome || m.latitude.isSome ||
  m.longitude.isSome || m.altitude.isSome || m.description.isSome

/-! ## Metadata extraction (source lines 121-157) -/

/-- Python's `a or b` on two optional geo dicts: the first operand when it is
present and truthy, otherwise the second operand (source line 136). -/
def pyOrGeo (a b : Option GeoBlock) : Option GeoBlock :=
  match a with
  | some g => if geoTruthy g then some g else b
  | none => b

/-- The geo block whose values extract_metadata actually reads: the result of
the `or` at line 136 when it additionally passes the truthiness test at
line 137. -/
def selected_geo (data : Sidecar) : Option GeoBlock :=
  match pyOrGeo data.geoDataExif data.geoData with
  | some g => if geoTruthy g then some g else none
  | none => none

/-- Timestamp section of extract_metadata (source lines 129-133). -/
def applyTimestamp (data : Sidecar) (md : ExtractedMetadata) : ExtractedMetadata :=
  match data.photoTakenTime with
  | some ts =>
    { md with datetime := some (timestamp_to_exif_format ts), timestamp := some ts }
  | none => md

/-- GPS section of extract_metadata (source lines 135-147): select a source
block, read each coordinate with default 0.0, and keep the coordinates only
when both are non-zero, the altitude only when additionally non-zero. -/
def applyGps (data : Sidecar) (md : ExtractedMetadata) : ExtractedMetadata :=
  match pyOrGeo data.geoDataExif data.geoData with
  | some gps_src =>
    if geoTruthy gps_src then
      let lat := gps_src.latitude.getD 0
      let lon := gps_src.longitude.getD 0
      let alt := gps_src.altitude.getD 0
      if lat ≠ 0 ∧ lon ≠ 0 then
        let md' := { md with latitude := some lat, longitude := some lon }
        if alt ≠ 0 then { md' with altitude := some alt } else md'
      else md
    else md
  | none => md

/-- Description section of extract_metadata (source lines 149-151): pass the
description through when present and truthy (non-empty). -/
def applyDescription (data : Sidecar) (md : ExtractedMetadata) : ExtractedMetadata :=
  match data.description with
  | some d => if d ≠ "" then { md with description := some d } else md
  | none => md

/-- Body of extract_metadata on successfully parsed JSON (source lines
127-153): the three sections applied in source order to the empty dict. -/
def extract_metadata_data (data : Sidecar) : ExtractedMetadata :=
  applyDescription data (applyGps data (applyTimestamp data {}))

/-- Model of extract_metadata (source lines 121-157) including the exception
handler: a parse failure yields the empty dict plus one recorded error, a
parsed sidecar yields the extracted fields and no error. Returns the metadata
together with the list of error strings appended to stats["errors"]. -/
def extract_metadata (json_name : String) (j : SidecarJson) :
    ExtractedMetadata × List String :=
  match j with
  | SidecarJson.malformed => ({}, ["Failed to parse " ++ json_name])
  | SidecarJson.parsed data => (extract_metadata_data data, [])

/-! ## Tag plan construction (source lines 160-211) -/

/-- Model of build_exiftool_command (source lines 160-211): the exact argument
list handed to exiftool. -/
def build_exiftool_command (exiftool_path : String) (media_file : String)
    (metadata : ExtractedMetadata) (is_video : Bool) : List String :=
  let cmd := [exiftool_path, "-overwrite_original"]
  let cmd := cmd ++
    (match metadata.datetime with
     | some dt =>
       if is_video then
         ["-CreateDate=" ++ dt, "-ModifyDate=" ++ dt,
          "-TrackCreateDate=" ++ dt, "-TrackModifyDate=" ++ dt,
          "-MediaCreateDate=" ++ dt, "-MediaModifyDate=" ++ dt]
       else
         ["-DateTimeOriginal=" ++ dt, "-CreateDate=" ++ dt, "-ModifyDate=" ++ dt]
     | none => [])
  let cmd := cmd ++
    (match metadata.latitude, metadata.longitude with
     | some lat, some lon =>
       let lat_ref := if lat ≥ 0 then "N" else "S"
       let lon_ref := if lon ≥ 0 then "E" else "W"
       ["-GPSLatitude=" ++ pyFloatStr (abs lat), "-GPSLatitudeRef=" ++ lat_ref,
        "-GPSLongitude=" ++ pyFloatStr (abs lon), "-GPSLongitudeRef=" ++ lon_ref] ++
       (match metadata.altitude with
        | some alt =>
          ["-GPSAltitude=" ++ pyFloatStr (abs alt),
           "-GPSAltitudeRef=" ++ (if alt ≥ 0 then "0" else "1")]
        | none => [])
     | _, _ => [])
  let cmd := cmd ++
    (match metadata.description with
     | some d => ["-ImageDescription=" ++ d]
     | none => [])
  cmd ++ [media_file]

/-- Video test used by apply_metadata (source line 216): the lowercase file
extension is one of .mp4 / .mov. -/
def apply_is_video (suffix : String) : Bool :=
  lowerStr suffix = ".mp4" || lowerStr suffix = ".mov"

/-- Tag-name stems that classify a command argument as a date tag. -/
def dateTagStems : List String :=
  ["-DateTimeOriginal=", "-CreateDate=", "-ModifyDate=", "-TrackCreateDate=",
   "-TrackModifyDate=", "-MediaCreateDate=", "-MediaModifyDate="]

/-- An exiftool argument assigns a date tag iff it starts with one of the
seven date tag names. -/
def isDateTag (s : String) : Bool :=
  dateTagStems.any (fun t => t.data.isPrefixOf s.data)

/-- An exiftool argument assigns a GPS tag iff it starts with "-GPS". -/
def isGpsTag (s : String) : Bool :=
  "-GPS".data.isPrefixOf s.data

/-! ## Filesystem model -/

/-- A filesystem path: directory component list plus filename. -/
structure FPath where
  dir : List String
  name : String
deriving DecidableEq

/-- A regular file on disk: its path and its modification time. Directories
are implicit (created on demand by the source; only files matter to any
behaviour under verification). -/
structure FSFile where
  path : FPath
  mtime : Int
deriving DecidableEq

/-- Render a path as its slash-joined string (how Python's Path sorts and
prints). -/
def fpathStr (p : FPath) : String :=
  String.intercalate "/" (p.dir ++ [p.name])

/-- Total comparison used to model sorted() over Path objects. -/
def pathLe (p q : FPath) : Bool :=
  !(strLtb (fpathStr q).data (fpathStr p).data)

/-- Insert into a sorted list, keeping earlier elements in front of equal
later ones. -/
def insertPath (x : FPath) : List FPath → List FPath
  | [] => [x]
  | y :: ys => if pathLe x y then x :: y :: ys else y :: insertPath x ys

/-- Stable sort by pathLe, modelling Python's sorted() over Path objects
(structurally recursive so that runs evaluate inside the kernel). -/
def sortPaths : List FPath → List FPath
  | [] => []
  | x :: xs => insertPath x (sortPaths xs)

/-- Path of the file in a list, if present (used for reading the source
mtime that shutil.copy2 preserves). -/
def getMtime (fs : List FSFile) (p : FPath) : Int :=
  ((fs.find? (fun f => decide (f.path = p))).map (fun f => f.mtime)).getD 0

/-- Effect of shutil.copy2 on the file list: the destination is replaced by a
copy of the source, carrying the source's modification time (copy2 preserves
file metadata). -/
def copy2 (fs : List FSFile) (src dst : FPath) : List FSFile :=
  (fs.filter (fun f => decide (f.path ≠ dst))) ++ [⟨dst, getMtime fs src⟩]

/-- Effect of os.utime on the file list: set the file's modification time. -/
def utime (fs : List FSFile) (p : FPath) (t : Int) : List FSFile :=
  fs.map (fun f => if f.path = p then ⟨f.path, t⟩ else f)

/-- A path exists in the file list. -/
def HasPath (fs : List FSFile) (p : FPath) : Prop :=
  ∃ f ∈ fs, f.path = p

/-- Directory existence: some file lies at or below the directory. (Empty
directories are not modelled; every claim under verification only ever needs
directories holding at least one file.) -/
def dirHolds (fs : List FSFile) (root : List String) : Bool :=
  fs.any (fun f => root.isPrefixOf f.path.dir)

/-! ## Discovery (source lines 247-258) and sidecar matching (103-112) -/

/-- The recognized media extension set (source line 22). -/
def MEDIA_EXTENSIONS : List String :=
  [".jpg", ".jpeg", ".png", ".webp", ".heic", ".heif", ".bmp", ".tiff", ".gif",
   ".avif", ".jxl", ".jfif", ".raw", ".cr2", ".nef", ".orf", ".sr2", ".arw",
   ".dng", ".pef", ".raf", ".rw2", ".srw", ".3fr", ".erf", ".k25", ".kdc",
   ".mef", ".mos", ".mrw", ".nrw", ".srf", ".x3f", ".mp4", ".mov", ".mkv",
   ".avi", ".webm", ".3gp", ".m4v", ".mpg", ".mpeg", ".mts", ".m2ts", ".ts",
   ".flv", ".f4v", ".wmv", ".asf", ".rm", ".rmvb", ".vob", ".ogv", ".mxf",
   ".dv", ".divx", ".xvid"]

/-- The sidecar filename suffix patterns, in priority order (source
lines 25-29). -/
def JSON_PATTERNS : List String :=
  [".supplemental-metadata.json", ".supplemental-metada.json", ".supplemental-me.json"]

/-- A filename qualifies as a media file: lowercase extension recognized and
the name is not the album-level metadata.json (source lines 252-255). -/
def isMediaName (name : String) : Bool :=
  MEDIA_EXTENSIONS.contains (lowerStr (pySuffix name)) && name != "metadata.json"

/-- Model of discover_media_files (source lines 247-258): every file under
the root whose name qualifies, sorted by path. -/
def discover_media_files (fs : List FSFile) (root : List String) : List FPath :=
  sortPaths ((fs.filter (fun f => root.isPrefixOf f.path.dir && isMediaName f.path.name)).map
    (fun f => f.path))

/-- The external world an apply-mode run interacts with: the parse result of
each sidecar file that exists (keyed by its full path), whether each copy
call succeeds, and whether each exiftool invocation exits 0 (a timeout or
OSError is modelled as a failing invocation, exactly as the source treats
it). -/
structure Env where
  exiftool_path : String
  sidecars : List (FPath × SidecarJson)
  copyOk : FPath → Bool
  toolOk : FPath → Bool

/-- Model of find_json_for_media (source lines 103-112): try the three
patterns in order against the media filename in the same directory and return
the first sidecar that exists, together with its filename. -/
def find_json_for_media (env : Env) (media_file : FPath) : Option (String × SidecarJson) :=
  JSON_PATTERNS.findSome? fun pat =>
    let jname := media_file.name ++ pat
    match env.sidecars.find? (fun e => decide (e.1 = ⟨media_file.dir, jname⟩)) with
    | some e => some (jname, e.2)
    | none => none

/-! ## Run state, statistics and per-file processing -/

/-- The stats dictionary (source lines 32-41). -/
structure Stats where
  total_files : Nat := 0
  processed : Nat := 0
  with_json : Nat := 0
  without_json : Nat := 0
  metadata_success : Nat := 0
  metadata_failed : Nat := 0
  gps_applied : Nat := 0
  errors : List String := []
deriving DecidableEq

/-- Mutable state of a run: the filesystem, the stats dictionary, the
commands actually executed (apply mode) and the commands recorded by the
dry-run preview. -/
structure RunState where
  fs : List FSFile
  stats : Stats
  executed : List (List String) := []
  recorded : List (List String) := []
deriving DecidableEq

/-- Append error strings to stats["errors"]. -/
def addErrors (st : RunState) (es : List String) : RunState :=
  { st with stats := { st.stats with errors := st.stats.errors ++ es } }

/-- Model of apply_metadata (source lines 214-244): build the command; in
dry-run mode record it and succeed; in apply mode invoke the tool, treat a
non-zero exit (or timeout/OSError) as failure with an error recorded, and on
success set the file's mtime when a timestamp was extracted. The diagnostic
text interpolated from stderr is elided from the error message. -/
def apply_metadata (env : Env) (st : RunState) (media_file : FPath)
    (metadata : ExtractedMetadata) (dry_run : Bool) : RunState × Bool :=
  let is_video := apply_is_video (pySuffix media_file.name)
  let cmd := build_exiftool_command env.exiftool_path (fpathStr media_file) metadata is_video
  if dry_run then
    ({ st with recorded := st.recorded ++ [cmd] }, true)
  else
    let st := { st with executed := st.executed ++ [cmd] }
    if env.toolOk media_file then
      let st :=
        match metadata.timestamp with
        | some ts => { st with fs := utime st.fs media_file ts }
        | none => st
      (st, true)
    else
      (addErrors st ["exiftool failed for " ++ media_file.name], false)

/-- Metadata block of process_file (source lines 314-327): when any metadata
was extracted, apply it and update the success/failure and GPS counters,
returning early on failure; then count the file as processed. -/
def metadata_step (env : Env) (output_file : FPath) (dry_run : Bool)
    (st : RunState) (metadata : ExtractedMetadata) : RunState × Bool :=
  if metadata.nonEmpty then
    match apply_metadata env st output_file metadata dry_run with
    | (st, true) =>
      let st := { st with stats := { st.stats with metadata_success := st.stats.metadata_success + 1 } }
      let st :=
        if metadata.latitude.isSome then
          { st with stats := { st.stats with gps_applied := st.stats.gps_applied + 1 } }
        else st
      ({ st with stats := { st.stats with processed := st.stats.processed + 1 } }, true)
    | (st, false) =>
      ({ st with stats := { st.stats with metadata_failed := st.stats.metadata_failed + 1 } }, false)
  else
    ({ st with stats := { st.stats with processed := st.stats.processed + 1 } }, true)

/-- Tail of process_file after sidecar matching and extraction (source lines
299-327): make the output directory and copy (apply mode only, failure stops
the file's processing), then run the metadata block. -/
def process_file_rest (env : Env) (source_file output_file : FPath)
    (dry_run : Bool) (st : RunState) (metadata : ExtractedMetadata) : RunState × Bool :=
  if dry_run = false ∧ env.copyOk source_file = false then
    (addErrors st ["Failed to copy " ++ source_file.name], false)
  else
    metadata_step env output_file dry_run
      (if dry_run then st else { st with fs := copy2 st.fs source_file output_file })
      metadata

/-- Destination path of a source file: the source-relative path re-rooted
under the output root (source lines 273-274). -/
def outPath (source_root output_root : List String) (f : FPath) : FPath :=
  ⟨output_root ++ f.dir.drop source_root.length, f.name⟩

/-- Model of process_file (source lines 261-327). The early return for
--skip-no-json (line 297) is modelled by branching before the shared tail;
verbose printing is console-only and not modelled. -/
def process_file (env : Env) (source_file : FPath) (source_root output_root : List String)
    (dry_run skip_no_json : Bool) (st : RunState) : RunState × Bool :=
  match find_json_for_media env source_file with
  | some (jname, j) =>
    process_file_rest env source_file (outPath source_root output_root source_file) dry_run
      (addErrors
        { st with stats := { st.stats with with_json := st.stats.with_json + 1 } }
        (extract_metadata jname j).2)
      (extract_metadata jname j).1
  | none =>
    if skip_no_json then
      ({ st with stats := { st.stats with without_json := st.stats.without_json + 1 } }, true)
    else
      process_file_rest env source_file (outPath source_root output_root source_file) dry_run
        { st with stats := { st.stats with without_json := st.stats.without_json + 1 } } {}

/-! ## Verification (source lines 330-354) and the run loop (main, 483-558) -/

/-- The set difference computed by verify_output: source-relative media paths
with no counterpart among output-relative media paths, both sides produced by
the same discovery rule (source lines 335-348). Relativization drops the
root's components. -/
def missing_rels (fs : List FSFile) (source_root output_root : List String) : List FPath :=
  ((discover_media_files fs source_root).map
      (fun p => FPath.mk (p.dir.drop source_root.length) p.name)).filter
    (fun r => decide (¬ r ∈ (discover_media_files fs output_root).map
      (fun p => FPath.mk (p.dir.drop output_root.length) p.name)))

/-- Model of verify_output (source lines 330-354): fail when the output root
does not exist, otherwise report the missing relative paths. -/
def verify_output (fs : List FSFile) (source_root output_root : List String) :
    Bool × List FPath :=
  if dirHolds fs output_root = false then (false, [])
  else
    match missing_rels fs source_root output_root with
    | [] => (true, [])
    | missing => (false, missing)

/-- The processing loop of main (source lines 495-511) followed by nothing
else that mutates state: fold process_file over the discovered files. -/
def run_files (env : Env) (source_root output_root : List String)
    (dry_run skip_no_json : Bool) (st : RunState) (files : List FPath) : RunState :=
  files.foldl
    (fun st f => (process_file env f source_root output_root dry_run skip_no_json st).1) st

/-- A full run (main, source lines 483-513): discover the media files, set
total_files, and process each file in order. -/
def run_takeout (env : Env) (source_root output_root : List String)
    (dry_run skip_no_json : Bool) (fs0 : List FSFile) : RunState :=
  let media_files := discover_media_files fs0 source_root
  run_files env source_root output_root dry_run skip_no_json
    { fs := fs0, stats := { total_files := media_files.length } } media_files

/-- The three terminal tiers of a run. -/
inductive Tier where
  | failure
  | degraded
  | success
deriving DecidableEq

/-- Which branch of main's final conditional a run takes (source lines
546-558): errors with unprocessed files is the hard-failure branch, errors
with every file processed is the completed-with-errors branch, no errors is
the success branch. -/
def run_tier (s : Stats) : Tier :=
  if s.errors ≠ [] ∧ s.processed < s.total_files then Tier.failure
  else if s.errors ≠ [] then Tier.degraded
  else Tier.success

/-- The process exit status produced by main's final conditional (source
lines 546-558): sys.exit(1) on the hard-failure branch, sys.exit(0) on the
other two. -/
def exit_code (s : Stats) : Nat :=
  if s.errors ≠ [] ∧ s.processed < s.total_files then 1
  else if s.errors ≠ [] then 0
  else 0

/-! ## Concrete scenarios referenced by the theorems -/

/-- End-to-end scenario A's sidecar: photoTakenTime.timestamp "1609459200",
geoDataExif with latitude 37.0, longitude -122.0, altitude 0.0. -/
def scenarioA : Sidecar :=
  { photoTakenTime := some 1609459200,
    geoDataExif := some { latitude := some 37, longitude := some (-122), altitude := some 0 } }

/-- A sidecar whose geoDataExif key is present and non-null but holds an
empty object, while geoData holds coordinates. -/
def exifEmptySidecar : Sidecar :=
  { geoDataExif := some {},
    geoData := some { latitude := some 37, longitude := some 1 } }

/-- The k-th media file of the ten-file scenario. -/
def tenFile (k : Nat) : FSFile :=
  ⟨⟨["src"], "p" ++ k.repr ++ ".jpg"⟩, 0⟩

/-- Source tree of the ten-file scenario: ten JPEGs in one directory. -/
def tenFs : List FSFile := (List.range 10).map tenFile

/-- Environment of the ten-file scenario: every file has a sidecar carrying a
description (so metadata application is attempted for all ten), every copy
succeeds, and exiftool exits non-zero for exactly one file (p3.jpg). -/
def tenEnv : Env :=
  { exiftool_path := "exiftool",
    sidecars := (List.range 10).map (fun k =>
      (⟨["src"], "p" ++ k.repr ++ ".jpg.supplemental-metadata.json"⟩,
       SidecarJson.parsed { description := some "x" })),
    copyOk := fun _ => true,
    toolOk := fun p => p.name != "p3.jpg" }

/-- Final state of the ten-file scenario run (apply mode, no skipping). -/
def tenRun : RunState := run_takeout tenEnv ["src"] ["out"] false false tenFs

/-- Terminal statistics of a run that processed its single file but recorded
one error (a metadata failure on a copied file). -/
def degradedStats : Stats := { total_files := 1, processed := 1, errors := ["e"] }

/-- Terminal statistics of a run that processed its single file with no
errors. -/
def successStats : Stats := { total_files := 1, processed := 1 }

/-- A geo block whose latitude is exactly zero. -/
def zeroGeo : GeoBlock := { latitude := some 0, longitude := some 5 }

/-- A sidecar whose selected geo block has a zero latitude. -/
def zeroLatSidecar : Sidecar := { geoData := some zeroGeo }

/-- A sidecar carrying both geo blocks with differing coordinates, the
exif-oriented one truthy. -/
def exifFullSidecar : Sidecar :=
  { geoDataExif := some { latitude := some 2, longitude := some 3 },
    geoData := some { latitude := some 37, longitude := some 1 } }

/-- The three photo date-tag assignments for a formatted date string. -/
def photoDateTags (dt : String) : List String :=
  ["-DateTimeOriginal=" ++ dt, "-CreateDate=" ++ dt, "-ModifyDate=" ++ dt]

/-- The six video date-tag assignments for a formatted date string. -/
def videoDateTags (dt : String) : List String :=
  ["-CreateDate=" ++ dt, "-ModifyDate=" ++ dt, "-TrackCreateDate=" ++ dt,
   "-TrackModifyDate=" ++ dt, "-MediaCreateDate=" ++ dt, "-MediaModifyDate=" ++ dt]

/-- The exiftool invocations a file's processing plans: one command when the
sidecar yields non-empty metadata, none otherwise. In preview mode this list
is recorded; in apply mode (when the copy succeeds) it is executed. -/
def planned_cmds (env : Env) (source_file : FPath)
    (source_root output_root : List String) : List (List String) :=
  match find_json_for_media env source_file with
  | some (jname, j) =>
    let md := (extract_metadata jname j).1
    if md.nonEmpty then
      [build_exiftool_command env.exiftool_path
        (fpathStr (outPath source_root output_root source_file)) md
        (apply_is_video (pySuffix source_file.name))]
    else []
  | none => []

/-- An environment whose only sidecar is malformed JSON. -/
def badEnv : Env :=
  { exiftool_path := "exiftool",
    sidecars := [(⟨["s"], "a.jpg.supplemental-metadata.json"⟩, SidecarJson.malformed)],
    copyOk := fun _ => true,
    toolOk := fun _ => true }

/-- A run state holding one source media file. -/
def oneSt : RunState :=
  { fs := [⟨⟨["s"], "a.jpg"⟩, 7⟩], stats := { total_files := 1 } }

/-- A one-file source tree. -/
def oneFs : List FSFile := [⟨⟨["s"], "a.jpg"⟩, 7⟩]

/-- An environment with no sidecars where every copy and every tool
invocation succeeds. -/
def oneEnv : Env :=
  { exiftool_path := "exiftool",
    sidecars := [],
    copyOk := fun _ => true,
    toolOk := fun _ => true }

/-! ## Helper lemmas -/

theorem prefixTotal {α : Type} {l₁ l₂ l₃ : List α} (h1 : l₁ <+: l₃) (h2 : l₂ <+: l₃) :
    l₁ <+: l₂ ∨ l₂ <+: l₁ := by
  rcases Nat.le_total l₁.length l₂.length with h | h
  · exact Or.inl (List.prefix_of_prefix_length_le h1 h2 h)
  · exact Or.inr (List.prefix_of_prefix_length_le h2 h1 h)

theorem isPrefixOfIff {α : Type} [BEq α] [LawfulBEq α] {t s : List α} :
    t.isPrefixOf s = true ↔ t <+: s := by
  simp [ List.isPrefixOf_iff_prefix]

theorem notPrefixOfAppend {t a : List Char} (h1 : ¬ t <+: a) (h2 : ¬ a <+: t)
    (r : List Char) : t.isPrefixOf (a ++ r) = false := by
  cases hb : t.isPrefixOf (a ++ r) with
  | false => rfl
  | true =>
    have ht : t <+: a ++ r := isPrefixOfIff.mp hb
    rcases prefixTotal ht (List.prefix_append a r) with hc | hc
    · exact absurd hc h1
    · exact absurd hc h2

theorem isDateTag_stem {t : String} (ht : t ∈ dateTagStems) (dt : String) :
    isDateTag (t ++ dt) = true := by
  unfold isDateTag
  rw [List.any_eq_true]
  refine ⟨t, ht, ?_⟩
  rw [String.data_append]
  exact isPrefixOfIff.mpr (List.prefix_append _ _)

theorem isDateTag_append_false {a : String}
    (h : ∀ t ∈ dateTagStems, ¬ t.data <+: a.data ∧ ¬ a.data <+: t.data) (r : String) :
    isDateTag (a ++ r) = false := by
  unfold isDateTag
  rw [List.any_eq_false]
  intro t ht
  rw [String.data_append, notPrefixOfAppend (h t ht).1 (h t ht).2]
  simp

theorem isGpsTag_append_false {a : String}
    (h : ¬ "-GPS".data <+: a.data ∧ ¬ a.data <+: "-GPS".data) (r : String) :
    isGpsTag (a ++ r) = false := by
  unfold isGpsTag
  rw [String.data_append]
  exact notPrefixOfAppend h.1 h.2 _

theorem idt_dto (dt : String) : isDateTag ("-DateTimeOriginal=" ++ dt) = true :=
  isDateTag_stem (by decide) dt

theorem idt_cd (dt : String) : isDateTag ("-CreateDate=" ++ dt) = true :=
  isDateTag_stem (by decide) dt

theorem idt_md (dt : String) : isDateTag ("-ModifyDate=" ++ dt) = true :=
  isDateTag_stem (by decide) dt

theorem idt_tcd (dt : String) : isDateTag ("-TrackCreateDate=" ++ dt) = true :=
  isDateTag_stem (by decide) dt

theorem idt_tmd (dt : String) : isDateTag ("-TrackModifyDate=" ++ dt) = true :=
  isDateTag_stem (by decide) dt

theorem idt_mcd (dt : String) : isDateTag ("-MediaCreateDate=" ++ dt) = true :=
  isDateTag_stem (by decide) dt

theorem idt_mmd (dt : String) : isDateTag ("-MediaModifyDate=" ++ dt) = true :=
  isDateTag_stem (by decide) dt

theorem idt_ow : isDateTag "-overwrite_original" = false := by decide

theorem idt_glat (r : String) : isDateTag ("-GPSLatitude=" ++ r) = false :=
  isDateTag_append_false (by decide) r

theorem idt_glatref (r : String) : isDateTag ("-GPSLatitudeRef=" ++ r) = false :=
  isDateTag_append_false (by decide) r

theorem idt_glon (r : String) : isDateTag ("-GPSLongitude=" ++ r) = false :=
  isDateTag_append_false (by decide) r

theorem idt_glonref (r : String) : isDateTag ("-GPSLongitudeRef=" ++ r) = false :=
  isDateTag_append_false (by decide) r

theorem idt_galt (r : String) : isDateTag ("-GPSAltitude=" ++ r) = false :=
  isDateTag_append_false (by decide) r

theorem idt_galtref (r : String) : isDateTag ("-GPSAltitudeRef=" ++ r) = false :=
  isDateTag_append_false (by decide) r

theorem idt_desc (r : String) : isDateTag ("-ImageDescription=" ++ r) = false :=
  isDateTag_append_false (by decide) r

theorem igt_ow : isGpsTag "-overwrite_original" = false := by decide

theorem igt_dto (r : String) : isGpsTag ("-DateTimeOriginal=" ++ r) = false :=
  isGpsTag_append_false (by decide) r

theorem igt_cd (r : String) : isGpsTag ("-CreateDate=" ++ r) = false :=
  isGpsTag_append_false (by decide) r

theorem igt_md (r : String) : isGpsTag ("-ModifyDate=" ++ r) = false :=
  isGpsTag_append_false (by decide) r

theorem igt_tcd (r : String) : isGpsTag ("-TrackCreateDate=" ++ r) = false :=
  isGpsTag_append_false (by decide) r

theorem igt_tmd (r : String) : isGpsTag ("-TrackModifyDate=" ++ r) = false :=
  isGpsTag_append_false (by decide) r

theorem igt_mcd (r : String) : isGpsTag ("-MediaCreateDate=" ++ r) = false :=
  isGpsTag_append_false (by decide) r

theorem igt_mmd (r : String) : isGpsTag ("-MediaModifyDate=" ++ r) = false :=
  isGpsTag_append_false (by decide) r

theorem igt_desc (r : String) : isGpsTag ("-ImageDescription=" ++ r) = false :=
  isGpsTag_append_false (by decide) r

theorem filter_dateTags (p f : String) (md : ExtractedMetadata) (v : Bool) (dt : String)
    (hdt : md.datetime = some dt) (hp : isDateTag p = false) (hf : isDateTag f = false) :
    (build_exiftool_command p f md v).filter isDateTag =
      if v then videoDateTags dt else photoDateTags dt := by
  unfold build_exiftool_command
  rw [hdt]
  cases v <;>
    cases hlat : md.latitude <;> cases hlon : md.longitude <;>
    cases halt : md.altitude <;> cases hdsc : md.description <;>
      simp [List.filter_append, hp, hf, photoDateTags, videoDateTags,
        idt_dto, idt_cd, idt_md, idt_tcd, idt_tmd, idt_mcd, idt_mmd,
        idt_glat, idt_glatref, idt_glon, idt_glonref, idt_galt, idt_galtref,
        idt_desc, idt_ow]

theorem no_gps_tags (p f : String) (md : ExtractedMetadata) (v : Bool)
    (h : md.latitude = none ∨ md.longitude = none)
    (hp : isGpsTag p = false) (hf : isGpsTag f = false) :
    ∀ c ∈ build_exiftool_command p f md v, isGpsTag c = false := by
  intro c hc
  unfold build_exiftool_command at hc
  cases hlat : md.latitude <;> cases hlon : md.longitude <;>
    rw [hlat, hlon] at h hc <;>
    cases hdt : md.datetime <;> cases v <;> cases hdsc : md.description <;>
      rw [hdt, hdsc] at hc <;>
      simp at hc <;>
      rcases hc with hc | hc | hc | hc | hc | hc | hc | hc | hc | hc | hc <;>
        first
        | (subst hc
           first
           | exact hp
           | exact hf
           | exact igt_ow
           | exact igt_dto _
           | exact igt_cd _
           | exact igt_md _
           | exact igt_tcd _
           | exact igt_tmd _
           | exact igt_mcd _
           | exact igt_mmd _
           | exact igt_desc _)
        | simp_all

theorem applyTimestamp_lat (d : Sidecar) (m : ExtractedMetadata) :
    (applyTimestamp d m).latitude = m.latitude := by
  unfold applyTimestamp; cases d.photoTakenTime <;> rfl

theorem applyTimestamp_lon (d : Sidecar) (m : ExtractedMetadata) :
    (applyTimestamp d m).longitude = m.longitude := by
  unfold applyTimestamp; cases d.photoTakenTime <;> rfl

theorem applyTimestamp_alt (d : Sidecar) (m : ExtractedMetadata) :
    (applyTimestamp d m).altitude = m.altitude := by
  unfold applyTimestamp; cases d.photoTakenTime <;> rfl

theorem applyDescription_lat (d : Sidecar) (m : ExtractedMetadata) :
    (applyDescription d m).latitude = m.latitude := by
  unfold applyDescription; cases d.description
  · rfl
  · dsimp only []; split <;> rfl

theorem applyDescription_lon (d : Sidecar) (m : ExtractedMetadata) :
    (applyDescription d m).longitude = m.longitude := by
  unfold applyDescription; cases d.description
  · rfl
  · dsimp only []; split <;> rfl

theorem applyDescription_alt (d : Sidecar) (m : ExtractedMetadata) :
    (applyDescription d m).altitude = m.altitude := by
  unfold applyDescription; cases d.description
  · rfl
  · dsimp only []; split <;> rfl


theorem selected_geo_some {d : Sidecar} {g : GeoBlock} (hsel : selected_geo d = some g) :
    pyOrGeo d.geoDataExif d.geoData = some g ∧ geoTruthy g = true := by
  unfold selected_geo at hsel
  cases hor : pyOrGeo d.geoDataExif d.geoData with
  | none => rw [hor] at hsel; exact absurd hsel (by simp)
  | some g' =>
    rw [hor] at hsel
    by_cases ht : geoTruthy g' = true
    · simp only [ht, if_true, Option.some.injEq] at hsel
      subst hsel
      exact ⟨rfl, ht⟩
    · simp only [ht, if_false] at hsel
      exact absurd hsel (by simp)

theorem selected_geo_some_of {d : Sidecar} {g : GeoBlock}
    (hor : pyOrGeo d.geoDataExif d.geoData = some g) (ht : geoTruthy g = true) :
    selected_geo d = some g := by
  unfold selected_geo
  rw [hor]
  simp [ht]

theorem extract_gps_zero (d : Sidecar) (g : GeoBlock)
    (hsel : selected_geo d = some g)
    (hz : g.latitude.getD 0 = 0 ∨ g.longitude.getD 0 = 0) :
    (extract_metadata_data d).latitude = none ∧
    (extract_metadata_data d).longitude = none ∧
    (extract_metadata_data d).altitude = none := by
  have hext : extract_metadata_data d =
      applyDescription d (applyGps d (applyTimestamp d {})) := rfl
  obtain ⟨hor, ht⟩ := selected_geo_some hsel
  have hnz : ¬ (g.latitude.getD 0 ≠ 0 ∧ g.longitude.getD 0 ≠ 0) := by
    rcases hz with hz | hz
    · exact fun hcontra => hcontra.1 hz
    · exact fun hcontra => hcontra.2 hz
  rw [hext, applyDescription_lat, applyDescription_lon, applyDescription_alt]
  simp only [applyGps, hor, ht, if_true, if_neg hnz]
  rw [applyTimestamp_lat, applyTimestamp_lon, applyTimestamp_alt]
  exact ⟨rfl, rfl, rfl⟩

theorem extract_gps_invariant (d : Sidecar) :
    ((extract_metadata_data d).latitude.isSome ↔ (extract_metadata_data d).longitude.isSome) ∧
    (∀ a : ℚ, (extract_metadata_data d).altitude = some a →
      (extract_metadata_data d).latitude.isSome ∧ (extract_metadata_data d).longitude.isSome ∧
      a ≠ 0) := by
  have hext : extract_metadata_data d =
      applyDescription d (applyGps d (applyTimestamp d {})) := rfl
  rw [hext, applyDescription_lat, applyDescription_lon, applyDescription_alt]
  cases hor : pyOrGeo d.geoDataExif d.geoData with
  | none =>
    simp only [applyGps, hor]
    rw [applyTimestamp_lat, applyTimestamp_lon, applyTimestamp_alt]
    simp
  | some g =>
    by_cases ht : geoTruthy g = true
    · by_cases hz : (g.latitude.getD 0 ≠ 0 ∧ g.longitude.getD 0 ≠ 0)
      · by_cases ha : g.altitude.getD 0 ≠ 0
        · simp only [applyGps, hor, ht, if_true, if_pos hz, if_pos ha]
          refine ⟨by simp, fun a haeq => ⟨by simp, by simp, ?_⟩⟩
          have hget : g.altitude.getD 0 = a := by
            simpa using haeq
          rw [← hget]; exact ha
        · simp only [applyGps, hor, ht, if_true, if_pos hz, if_neg ha]
          refine ⟨by simp, fun a haeq => ?_⟩
          have halt : (applyTimestamp d
              ({} : ExtractedMetadata)).altitude = none := by
            rw [applyTimestamp_alt]
          simp only [] at haeq
          rw [show ({ applyTimestamp d ({} : ExtractedMetadata) with
              latitude := some (g.latitude.getD 0),
              longitude := some (g.longitude.getD 0) } :
              ExtractedMetadata).altitude =
              (applyTimestamp d ({} : ExtractedMetadata)).altitude from rfl,
            halt] at haeq
          exact absurd haeq (by simp)
      · simp only [applyGps, hor, ht, if_true, if_neg hz]
        rw [applyTimestamp_lat, applyTimestamp_lon, applyTimestamp_alt]
        simp
    · simp only [applyGps, hor, if_neg ht]
      rw [applyTimestamp_lat, applyTimestamp_lon, applyTimestamp_alt]
      simp

/-! ## Claim theorems -/

/-- C1: for every sidecar whose selected geo block has latitude 0.0 or
longitude 0.0, the extracted metadata contains neither latitude nor longitude
nor altitude and the built exiftool command contains no GPS tag; moreover,
for every sidecar, latitude and longitude are extracted together or not at
all, and altitude is retained only when both are present and the altitude is
itself non-zero. -/
theorem C1_zero_coordinate_suppresses_gps
    (d : Sidecar) (g : GeoBlock) (p f : String) (v : Bool)
    (hsel : selected_geo d = some g)
    (hz : g.latitude.getD 0 = 0 ∨ g.longitude.getD 0 = 0)
    (hp : isGpsTag p = false) (hf : isGpsTag f = false) :
    ((extract_metadata_data d).latitude = none ∧
     (extract_metadata_data d).longitude = none ∧
     (extract_metadata_data d).altitude = none) ∧
    (∀ c ∈ build_exiftool_command p f (extract_metadata_data d) v, isGpsTag c = false) ∧
    (∀ d' : Sidecar,
      ((extract_metadata_data d').latitude.isSome ↔ (extract_metadata_data d').longitude.isSome) ∧
      (∀ a : ℚ, (extract_metadata_data d').altitude = some a →
        (extract_metadata_data d').latitude.isSome ∧
        (extract_metadata_data d').longitude.isSome ∧ a ≠ 0)) := by
  obtain ⟨hlat, hlon, halt⟩ := extract_gps_zero d g hsel hz
  exact ⟨⟨hlat, hlon, halt⟩,
    no_gps_tags p f (extract_metadata_data d) v (Or.inl hlat) hp hf,
    fun d' => extract_gps_invariant d'⟩

/-- Witness for C1 at a concrete sidecar whose geoData block carries
latitude 0. -/
theorem C1_witness :
    (selected_geo zeroLatSidecar = some zeroGeo ∧
     (zeroGeo.latitude.getD 0 = 0 ∨ zeroGeo.longitude.getD 0 = 0) ∧
     isGpsTag "exiftool" = false ∧ isGpsTag "a.jpg" = false) ∧
    (((extract_metadata_data zeroLatSidecar).latitude = none ∧
      (extract_metadata_data zeroLatSidecar).longitude = none ∧
      (extract_metadata_data zeroLatSidecar).altitude = none) ∧
     (∀ c ∈ build_exiftool_command "exiftool" "a.jpg"
        (extract_metadata_data zeroLatSidecar) false, isGpsTag c = false) ∧
     (∀ d' : Sidecar,
       ((extract_metadata_data d').latitude.isSome ↔
         (extract_metadata_data d').longitude.isSome) ∧
       (∀ a : ℚ, (extract_metadata_data d').altitude = some a →
         (extract_metadata_data d').latitude.isSome ∧
         (extract_metadata_data d').longitude.isSome ∧ a ≠ 0))) :=
  ⟨⟨by decide, by decide, by decide, by decide⟩,
   C1_zero_coordinate_suppresses_gps zeroLatSidecar zeroGeo "exiftool" "a.jpg" false
     (by decide) (by decide) (by decide) (by decide)⟩

/-- C3 counterexample: a sidecar whose geoDataExif key is present and
non-null (it holds an empty object) nevertheless yields metadata carrying
the generic geoData block's coordinates, so the geoData block's values do
appear although geoDataExif is present and non-null. -/
theorem C3_counterexample :
    exifEmptySidecar.geoDataExif = some {} ∧
    exifEmptySidecar.geoData = some { latitude := some 37, longitude := some 1 } ∧
    (extract_metadata_data exifEmptySidecar).latitude = some 37 ∧
    (extract_metadata_data exifEmptySidecar).longitude = some 1 ∧
    extract_metadata_data exifEmptySidecar ≠
      extract_metadata_data { exifEmptySidecar with geoData := none } := by
  decide

/-- C3 amended: for every sidecar in which geoDataExif is present and truthy
(non-null and a non-empty object), it is the selected geo source and the
extraction result is independent of the geoData block — the two are never
merged. -/
theorem C3_exif_priority (d : Sidecar) (g : GeoBlock)
    (hexif : d.geoDataExif = some g) (ht : geoTruthy g = true) :
    selected_geo d = some g ∧
    ∀ b : Option GeoBlock,
      extract_metadata_data { d with geoData := b } = extract_metadata_data d := by
  have hor : ∀ b : Option GeoBlock, pyOrGeo d.geoDataExif b = some g := by
    intro b
    rw [hexif]
    simp [pyOrGeo, ht]
  refine ⟨selected_geo_some_of (hor d.geoData) ht, fun b => ?_⟩
  unfold extract_metadata_data applyDescription applyGps applyTimestamp
  simp only [hor]

/-- Witness for C3's amended theorem at a sidecar holding both blocks with
differing coordinates. -/
theorem C3_witness :
    (exifFullSidecar.geoDataExif = some { latitude := some 2, longitude := some 3 } ∧
     geoTruthy { latitude := some 2, longitude := some 3 } = true) ∧
    (selected_geo exifFullSidecar = some { latitude := some 2, longitude := some 3 } ∧
     ∀ b : Option GeoBlock,
       extract_metadata_data { exifFullSidecar with geoData := b } =
         extract_metadata_data exifFullSidecar) :=
  ⟨⟨by decide, by decide⟩,
   C3_exif_priority exifFullSidecar { latitude := some 2, longitude := some 3 }
     (by decide) (by decide)⟩

/-- C4: whenever the extracted metadata carries a formatted date/time, the
built command's date-tag assignments are exactly the six video date tags for
a video and exactly the three photo date tags otherwise, every one carrying
the same formatted string. -/
theorem C4_date_tag_sets (md : ExtractedMetadata) (dt p f : String) (v : Bool)
    (hdt : md.datetime = some dt) (hp : isDateTag p = false) (hf : isDateTag f = false) :
    (build_exiftool_command p f md v).filter isDateTag =
      (if v then videoDateTags dt else photoDateTags dt) ∧
    ((build_exiftool_command p f md v).filter isDateTag).length = (if v then 6 else 3) ∧
    (∀ c ∈ (build_exiftool_command p f md v).filter isDateTag,
      ∃ stem, stem ∈ dateTagStems ∧ c = stem ++ dt) := by
  have h := filter_dateTags p f md v dt hdt hp hf
  refine ⟨h, ?_, ?_⟩
  · rw [h]; cases v <;> simp [videoDateTags, photoDateTags]
  · rw [h]
    cases v
    · intro c hc
      simp only [photoDateTags] at hc
      simp at hc
      rcases hc with rfl | rfl | rfl
      · exact ⟨"-DateTimeOriginal=", by decide, rfl⟩
      · exact ⟨"-CreateDate=", by decide, rfl⟩
      · exact ⟨"-ModifyDate=", by decide, rfl⟩
    · intro c hc
      simp only [videoDateTags] at hc
      simp at hc
      rcases hc with rfl | rfl | rfl | rfl | rfl | rfl
      · exact ⟨"-CreateDate=", by decide, rfl⟩
      · exact ⟨"-ModifyDate=", by decide, rfl⟩
      · exact ⟨"-TrackCreateDate=", by decide, rfl⟩
      · exact ⟨"-TrackModifyDate=", by decide, rfl⟩
      · exact ⟨"-MediaCreateDate=", by decide, rfl⟩
      · exact ⟨"-MediaModifyDate=", by decide, rfl⟩

/-- Witness for C4 at a concrete metadata record, once as video and once as
photo. -/
theorem C4_witness :
    (({ datetime := some "D" } : ExtractedMetadata).datetime = some "D" ∧
     isDateTag "exiftool" = false ∧ isDateTag "a.mp4" = false) ∧
    (build_exiftool_command "exiftool" "a.mp4" { datetime := some "D" } true).filter
        isDateTag = (if true then videoDateTags "D" else photoDateTags "D") ∧
    ((build_exiftool_command "exiftool" "a.mp4" { datetime := some "D" } true).filter
        isDateTag).length = (if true then 6 else 3) ∧
    (∀ c ∈ (build_exiftool_command "exiftool" "a.mp4"
        { datetime := some "D" } true).filter isDateTag,
      ∃ stem, stem ∈ dateTagStems ∧ c = stem ++ "D") :=
  ⟨⟨by decide, by decide, by decide⟩,
   C4_date_tag_sets { datetime := some "D" } "D" "exiftool" "a.mp4" true
     (by decide) (by decide) (by decide)⟩

/-- C5: end-to-end scenario A — extracting the sidecar with timestamp
"1609459200" and geoDataExif latitude 37.0 / longitude -122.0 / altitude 0.0
and building the plan for a JPEG yields exactly the three photo date tags
carrying 2021:01:01 00:00:00 (UTC assumption), latitude magnitude 37.0 with
reference N, longitude magnitude 122.0 with reference W, and no altitude
tag. -/
theorem C5_scenarioA_tagplan :
    extract_metadata_data scenarioA =
      { datetime := some "2021:01:01 00:00:00", timestamp := some 1609459200,
        latitude := some 37, longitude := some (-122) } ∧
    build_exiftool_command "exiftool" "photo.jpg" (extract_metadata_data scenarioA)
        (apply_is_video (pySuffix "photo.jpg")) =
      ["exiftool", "-overwrite_original",
       "-DateTimeOriginal=2021:01:01 00:00:00", "-CreateDate=2021:01:01 00:00:00",
       "-ModifyDate=2021:01:01 00:00:00",
       "-GPSLatitude=37.0", "-GPSLatitudeRef=N",
       "-GPSLongitude=122.0", "-GPSLongitudeRef=W", "photo.jpg"] := by
  decide

/-- C10: the video/photo decision of apply_metadata is exactly membership of
the lowercased extension in the two-element set mp4/mov, so every recognized
media extension other than those two — including the other video containers —
is planned as a photo and receives the three photo date tags. -/
theorem C10_video_test (ext : String)
    (hmem : ext ∈ MEDIA_EXTENSIONS) (h4 : ext ≠ ".mp4") (hv : ext ≠ ".mov") :
    (∀ s : String, apply_is_video s = (lowerStr s = ".mp4" || lowerStr s = ".mov")) ∧
    apply_is_video ext = false ∧
    (∀ (md : ExtractedMetadata) (dt p f : String),
      md.datetime = some dt → isDateTag p = false → isDateTag f = false →
      (build_exiftool_command p f md (apply_is_video ext)).filter isDateTag =
        photoDateTags dt) := by
  have hall : ∀ e ∈ MEDIA_EXTENSIONS, e ≠ ".mp4" → e ≠ ".mov" → apply_is_video e = false := by
    decide
  have hfalse : apply_is_video ext = false := hall ext hmem h4 hv
  refine ⟨fun s => rfl, hfalse, fun md dt p f hdt hp hf => ?_⟩
  rw [hfalse] at *
  have h := filter_dateTags p f md false dt hdt hp hf
  rw [hfalse]
  simpa using h

/-- Witness for C10 at the .mkv extension. -/
theorem C10_witness :
    (".mkv" ∈ MEDIA_EXTENSIONS ∧ ".mkv" ≠ ".mp4" ∧ ".mkv" ≠ ".mov") ∧
    ((∀ s : String, apply_is_video s = (lowerStr s = ".mp4" || lowerStr s = ".mov")) ∧
     apply_is_video ".mkv" = false ∧
     (∀ (md : ExtractedMetadata) (dt p f : String),
       md.datetime = some dt → isDateTag p = false → isDateTag f = false →
       (build_exiftool_command p f md (apply_is_video ".mkv")).filter isDateTag =
         photoDateTags dt)) :=
  ⟨⟨by decide, by decide, by decide⟩,
   C10_video_test ".mkv" (by decide) (by decide) (by decide)⟩

/-- C6 counterexample: a degraded run and a full-success run are distinct
tiers yet receive the same exit status 0, so the three tiers are not mapped
to distinct process exit signals. -/
theorem C6_counterexample :
    run_tier degradedStats = Tier.degraded ∧
    run_tier successStats = Tier.success ∧
    Tier.degraded ≠ Tier.success ∧
    exit_code degradedStats = 0 ∧ exit_code successStats = 0 := by
  decide

/-- C6 amended: the terminal state is one of exactly three tiers, but only
the failure tier receives a distinct exit status (1); the degraded and
full-success tiers both exit with status 0 and are distinguished only by the
printed message. -/
theorem C6_three_tiers (s : Stats) :
    (run_tier s = Tier.failure ∨ run_tier s = Tier.degraded ∨ run_tier s = Tier.success) ∧
    exit_code s = (if run_tier s = Tier.failure then 1 else 0) ∧
    (run_tier s = Tier.failure ↔ exit_code s = 1) := by
  unfold run_tier exit_code
  split_ifs <;> simp_all

/-- C2 counterexample: in the ten-file run where copying succeeds everywhere
and exiftool fails for exactly one file, the run ends in the hard-failure
tier (exit 1), not the degraded tier, and only nine files are counted as
processed. -/
theorem C2_counterexample :
    tenRun.stats.total_files = 10 ∧
    run_tier tenRun.stats = Tier.failure ∧
    run_tier tenRun.stats ≠ Tier.degraded ∧
    tenRun.stats.processed = 9 ∧
    tenRun.stats.processed ≠ 10 ∧
    exit_code tenRun.stats = 1 := by
  decide

/-- C2 amended: in that ten-file run the metadata-success counter is nine and
the metadata-failure counter is one, but the file whose tool invocation
failed is not counted as processed (processed ends at nine of ten), which
puts the run in the hard-failure tier with exit status 1 — even though all
ten files were in fact copied, as the completeness check itself confirms. -/
theorem C2_ten_file_run :
    tenRun.stats.metadata_success = 9 ∧
    tenRun.stats.metadata_failed = 1 ∧
    tenRun.stats.with_json = 10 ∧
    tenRun.stats.total_files = 10 ∧
    tenRun.stats.processed = 9 ∧
    run_tier tenRun.stats = Tier.failure ∧
    exit_code tenRun.stats = 1 ∧
    missing_rels tenRun.fs ["src"] ["out"] = [] ∧
    verify_output tenRun.fs ["src"] ["out"] = (true, []) := by
  decide


theorem process_file_malformed (env : Env) (st : RunState) (sf : FPath)
    (sroot oroot : List String) (jn : String)
    (hjson : find_json_for_media env sf = some (jn, SidecarJson.malformed))
    (hcopy : env.copyOk sf = true) :
    process_file env sf sroot oroot false false st =
      (⟨copy2 st.fs sf (outPath sroot oroot sf),
        { st.stats with
            with_json := st.stats.with_json + 1,
            processed := st.stats.processed + 1,
            errors := st.stats.errors ++ ["Failed to parse " ++ jn] },
        st.executed, st.recorded⟩, true) := by
  have hne : ({} : ExtractedMetadata).nonEmpty = false := rfl
  simp only [process_file, hjson]
  simp only [extract_metadata]
  unfold process_file_rest
  rw [hcopy]
  simp only [hne, outPath, addErrors]
  simp [metadata_step, hne]

/-- C7: a present sidecar whose JSON fails to parse yields the empty metadata
record plus exactly one recorded error, and the file's processing continues:
process_file still succeeds, the file is still copied (with no tags applied —
no tool invocation happens and the metadata counters are untouched), and it
is counted as processed. -/
theorem C7_parse_failure (env : Env) (st : RunState) (sf : FPath)
    (sroot oroot : List String) (jn : String)
    (hjson : find_json_for_media env sf = some (jn, SidecarJson.malformed))
    (hcopy : env.copyOk sf = true) :
    extract_metadata jn SidecarJson.malformed = ({}, ["Failed to parse " ++ jn]) ∧
    (process_file env sf sroot oroot false false st).2 = true ∧
    (process_file env sf sroot oroot false false st).1.fs =
      copy2 st.fs sf (outPath sroot oroot sf) ∧
    (process_file env sf sroot oroot false false st).1.stats.errors =
      st.stats.errors ++ ["Failed to parse " ++ jn] ∧
    (process_file env sf sroot oroot false false st).1.stats.processed =
      st.stats.processed + 1 ∧
    (process_file env sf sroot oroot false false st).1.stats.metadata_success =
      st.stats.metadata_success ∧
    (process_file env sf sroot oroot false false st).1.stats.metadata_failed =
      st.stats.metadata_failed ∧
    (process_file env sf sroot oroot false false st).1.executed = st.executed := by
  rw [process_file_malformed env st sf sroot oroot jn hjson hcopy]
  exact ⟨rfl, rfl, rfl, rfl, rfl, rfl, rfl, rfl⟩

/-- Witness for C7 at a concrete malformed sidecar. -/
theorem C7_witness :
    (find_json_for_media badEnv ⟨["s"], "a.jpg"⟩ =
        some ("a.jpg.supplemental-metadata.json", SidecarJson.malformed) ∧
     badEnv.copyOk ⟨["s"], "a.jpg"⟩ = true) ∧
    (extract_metadata "a.jpg.supplemental-metadata.json" SidecarJson.malformed =
        ({}, ["Failed to parse " ++ "a.jpg.supplemental-metadata.json"]) ∧
     (process_file badEnv ⟨["s"], "a.jpg"⟩ ["s"] ["o"] false false oneSt).2 = true ∧
     (process_file badEnv ⟨["s"], "a.jpg"⟩ ["s"] ["o"] false false oneSt).1.fs =
       copy2 oneSt.fs ⟨["s"], "a.jpg"⟩ (outPath ["s"] ["o"] ⟨["s"], "a.jpg"⟩) ∧
     (process_file badEnv ⟨["s"], "a.jpg"⟩ ["s"] ["o"] false false oneSt).1.stats.errors =
       oneSt.stats.errors ++ ["Failed to parse " ++ "a.jpg.supplemental-metadata.json"] ∧
     (process_file badEnv ⟨["s"], "a.jpg"⟩ ["s"] ["o"] false false oneSt).1.stats.processed =
       oneSt.stats.processed + 1 ∧
     (process_file badEnv ⟨["s"], "a.jpg"⟩ ["s"] ["o"] false false oneSt).1.stats.metadata_success =
       oneSt.stats.metadata_success ∧
     (process_file badEnv ⟨["s"], "a.jpg"⟩ ["s"] ["o"] false false oneSt).1.stats.metadata_failed =
       oneSt.stats.metadata_failed ∧
     (process_file badEnv ⟨["s"], "a.jpg"⟩ ["s"] ["o"] false false oneSt).1.executed =
       oneSt.executed) :=
  ⟨⟨by decide, by decide⟩,
   C7_parse_failure badEnv oneSt ⟨["s"], "a.jpg"⟩ ["s"] ["o"]
     "a.jpg.supplemental-metadata.json" (by decide) (by decide)⟩

theorem utime_path (g : FSFile) (p : FPath) (t : Int) :
    (if g.path = p then (⟨g.path, t⟩ : FSFile) else g).path = g.path := by
  split <;> rfl

theorem hasPath_utime {fs : List FSFile} {p : FPath} {t : Int} {q : FPath} :
    HasPath (utime fs p t) q ↔ HasPath fs q := by
  unfold HasPath utime
  constructor
  · rintro ⟨f, hf, hfp⟩
    rw [List.mem_map] at hf
    obtain ⟨g, hg, rfl⟩ := hf
    rw [utime_path] at hfp
    exact ⟨g, hg, hfp⟩
  · rintro ⟨g, hg, hgp⟩
    refine ⟨_, List.mem_map_of_mem _ hg, ?_⟩
    rw [utime_path]
    exact hgp

theorem hasPath_copy2_dst (fs : List FSFile) (src dst : FPath) :
    HasPath (copy2 fs src dst) dst := by
  refine ⟨⟨dst, getMtime fs src⟩, ?_, rfl⟩
  unfold copy2
  simp

theorem hasPath_copy2_mono {fs : List FSFile} {q : FPath} (src dst : FPath)
    (h : HasPath fs q) : HasPath (copy2 fs src dst) q := by
  by_cases hq : q = dst
  · subst hq; exact hasPath_copy2_dst fs src q
  · obtain ⟨f, hf, hfp⟩ := h
    refine ⟨f, ?_, hfp⟩
    unfold copy2
    rw [List.mem_append]
    left
    rw [List.mem_filter]
    refine ⟨hf, ?_⟩
    rw [decide_eq_true_eq, hfp]
    exact hq

theorem hasPath_copy2_rev {fs : List FSFile} {src dst q : FPath}
    (h : HasPath (copy2 fs src dst) q) : HasPath fs q ∨ q = dst := by
  obtain ⟨f, hf, hfp⟩ := h
  unfold copy2 at hf
  rw [List.mem_append] at hf
  rcases hf with hf | hf
  · rw [List.mem_filter] at hf
    exact Or.inl ⟨f, hf.1, hfp⟩
  · rw [List.mem_singleton] at hf
    subst hf
    exact Or.inr hfp.symm

theorem apply_metadata_paths (env : Env) (st : RunState) (mf : FPath)
    (md : ExtractedMetadata) (dr : Bool) (q : FPath) :
    HasPath (apply_metadata env st mf md dr).1.fs q ↔ HasPath st.fs q := by
  unfold apply_metadata
  cases dr
  · simp only [Bool.false_eq_true, if_false]
    by_cases ht : env.toolOk mf = true
    · rw [if_pos ht]
      cases md.timestamp
      · exact Iff.rfl
      · exact hasPath_utime
    · rw [if_neg ht]
      exact Iff.rfl
  · exact Iff.rfl

theorem apply_metadata_executed_dry (env : Env) (st : RunState) (mf : FPath)
    (md : ExtractedMetadata) :
    apply_metadata env st mf md true =
      ({ st with recorded := st.recorded ++
          [build_exiftool_command env.exiftool_path (fpathStr mf) md
            (apply_is_video (pySuffix mf.name))] }, true) := by
  unfold apply_metadata
  simp

theorem apply_metadata_executed (env : Env) (st : RunState) (mf : FPath)
    (md : ExtractedMetadata) :
    (apply_metadata env st mf md false).1.executed = st.executed ++
      [build_exiftool_command env.exiftool_path (fpathStr mf) md
        (apply_is_video (pySuffix mf.name))] := by
  unfold apply_metadata
  by_cases ht : env.toolOk mf = true
  · simp only [Bool.false_eq_true, if_false, if_pos ht]
    cases md.timestamp <;> rfl
  · simp only [Bool.false_eq_true, if_false, if_neg ht]
    rfl

theorem metadata_step_paths (env : Env) (out : FPath) (dr : Bool) (st : RunState)
    (md : ExtractedMetadata) (q : FPath) :
    HasPath (metadata_step env out dr st md).1.fs q ↔ HasPath st.fs q := by
  unfold metadata_step
  split
  · split
    next st2 heq =>
      have hiff := apply_metadata_paths env st out md dr q
      rw [heq] at hiff
      split <;> exact hiff
    next st2 heq =>
      have hiff := apply_metadata_paths env st out md dr q
      rw [heq] at hiff
      exact hiff
  · exact Iff.rfl

theorem rest_paths_mono (env : Env) (sf out : FPath) (dr : Bool) (st : RunState)
    (md : ExtractedMetadata) (q : FPath) (h : HasPath st.fs q) :
    HasPath (process_file_rest env sf out dr st md).1.fs q := by
  unfold process_file_rest
  split
  · exact h
  · rw [metadata_step_paths]
    split
    · exact h
    · exact hasPath_copy2_mono _ _ h

theorem rest_paths_rev (env : Env) (sf out : FPath) (dr : Bool) (st : RunState)
    (md : ExtractedMetadata) (q : FPath)
    (h : HasPath (process_file_rest env sf out dr st md).1.fs q) :
    HasPath st.fs q ∨ q = out := by
  unfold process_file_rest at h
  split at h
  · exact Or.inl h
  · rw [metadata_step_paths] at h
    split at h
    · exact Or.inl h
    · exact hasPath_copy2_rev h

theorem rest_copies (env : Env) (sf out : FPath) (st : RunState)
    (md : ExtractedMetadata) (hcopy : env.copyOk sf = true) :
    HasPath (process_file_rest env sf out false st md).1.fs out := by
  unfold process_file_rest
  rw [hcopy]
  have hcond : ¬ (false = false ∧ true = false) := by simp
  rw [if_neg hcond]
  rw [metadata_step_paths]
  have hdr : ¬ (false = true) := by simp
  rw [if_neg hdr]
  exact hasPath_copy2_dst st.fs sf out

theorem pf_paths_mono (env : Env) (sf : FPath) (sroot oroot : List String)
    (dr skip : Bool) (st : RunState) (q : FPath) (h : HasPath st.fs q) :
    HasPath (process_file env sf sroot oroot dr skip st).1.fs q := by
  unfold process_file
  split
  · exact rest_paths_mono _ _ _ _ _ _ _ h
  · split
    · exact h
    · exact rest_paths_mono _ _ _ _ _ _ _ h

theorem pf_paths_rev (env : Env) (sf : FPath) (sroot oroot : List String)
    (dr skip : Bool) (st : RunState) (q : FPath)
    (h : HasPath (process_file env sf sroot oroot dr skip st).1.fs q) :
    HasPath st.fs q ∨ q = outPath sroot oroot sf := by
  unfold process_file at h
  split at h
  · rcases rest_paths_rev env sf (outPath sroot oroot sf) dr _ _ q h with h' | h'
    · exact Or.inl h'
    · exact Or.inr h'
  · split at h
    · exact Or.inl h
    · rcases rest_paths_rev env sf (outPath sroot oroot sf) dr _ _ q h with h' | h'
      · exact Or.inl h'
      · exact Or.inr h'

theorem pf_copies (env : Env) (sf : FPath) (sroot oroot : List String)
    (st : RunState) (hcopy : env.copyOk sf = true) :
    HasPath (process_file env sf sroot oroot false false st).1.fs
      (outPath sroot oroot sf) := by
  unfold process_file
  split
  · exact rest_copies _ _ _ _ _ hcopy
  · simp only [Bool.false_eq_true, if_false]
    exact rest_copies _ _ _ _ _ hcopy

theorem run_files_cons (env : Env) (sroot oroot : List String) (dr skip : Bool)
    (st : RunState) (f : FPath) (fs : List FPath) :
    run_files env sroot oroot dr skip st (f :: fs) =
      run_files env sroot oroot dr skip (process_file env f sroot oroot dr skip st).1 fs :=
  rfl

theorem run_files_mono (env : Env) (sroot oroot : List String) (dr skip : Bool)
    (files : List FPath) (st : RunState) (q : FPath) (h : HasPath st.fs q) :
    HasPath (run_files env sroot oroot dr skip st files).fs q := by
  induction files generalizing st with
  | nil => exact h
  | cons f fs ih =>
    rw [run_files_cons]
    exact ih _ (pf_paths_mono env f sroot oroot dr skip st q h)

theorem run_files_rev (env : Env) (sroot oroot : List String) (dr skip : Bool)
    (files : List FPath) (st : RunState) (q : FPath)
    (h : HasPath (run_files env sroot oroot dr skip st files).fs q) :
    HasPath st.fs q ∨ ∃ f ∈ files, q = outPath sroot oroot f := by
  induction files generalizing st with
  | nil => exact Or.inl h
  | cons f fs ih =>
    rw [run_files_cons] at h
    rcases ih _ h with h' | ⟨g, hg, rfl⟩
    · rcases pf_paths_rev env f sroot oroot dr skip st q h' with h'' | rfl
      · exact Or.inl h''
      · exact Or.inr ⟨f, List.mem_cons_self f fs, rfl⟩
    · exact Or.inr ⟨g, List.mem_cons_of_mem f hg, rfl⟩

theorem run_files_copies (env : Env) (sroot oroot : List String)
    (files : List FPath) (st : RunState) (hcopy : ∀ p, env.copyOk p = true) :
    ∀ f ∈ files,
      HasPath (run_files env sroot oroot false false st files).fs
        (outPath sroot oroot f) := by
  induction files generalizing st with
  | nil => intro f hf; cases hf
  | cons g gs ih =>
    intro f hf
    rw [run_files_cons]
    rcases List.mem_cons.mp hf with rfl | hf'
    · exact run_files_mono env sroot oroot false false gs _ _
        (pf_copies env f sroot oroot st (hcopy f))
    · exact ih _ f hf'

theorem mem_insertPath {x a : FPath} {l : List FPath} :
    a ∈ insertPath x l ↔ a = x ∨ a ∈ l := by
  induction l with
  | nil => simp [insertPath]
  | cons y ys ih =>
    unfold insertPath
    split
    · simp [List.mem_cons]
    · rw [List.mem_cons, ih, List.mem_cons]
      tauto

theorem mem_sortPaths {a : FPath} {l : List FPath} : a ∈ sortPaths l ↔ a ∈ l := by
  induction l with
  | nil => exact Iff.rfl
  | cons x xs ih =>
    unfold sortPaths
    rw [mem_insertPath, ih, List.mem_cons]

theorem mem_discover {fs : List FSFile} {root : List String} {p : FPath} :
    p ∈ discover_media_files fs root ↔
      HasPath fs p ∧ root.isPrefixOf p.dir = true ∧ isMediaName p.name = true := by
  unfold discover_media_files
  rw [mem_sortPaths, List.mem_map]
  constructor
  · rintro ⟨f, hf, rfl⟩
    rw [List.mem_filter] at hf
    obtain ⟨hmem, hpred⟩ := hf
    rw [Bool.and_eq_true] at hpred
    exact ⟨⟨f, hmem, rfl⟩, hpred.1, hpred.2⟩
  · rintro ⟨⟨f, hf, rfl⟩, hpre, hmed⟩
    refine ⟨f, ?_, rfl⟩
    rw [List.mem_filter, Bool.and_eq_true]
    exact ⟨hf, hpre, hmed⟩

theorem not_source_under_out {sroot oroot : List String}
    (h1 : ¬ sroot <+: oroot) (h2 : ¬ oroot <+: sroot) (d : List String) :
    ¬ sroot.isPrefixOf (oroot ++ d) = true := by
  intro h
  have hp : sroot <+: oroot ++ d := isPrefixOfIff.mp h
  rcases prefixTotal hp (List.prefix_append oroot d) with hc | hc
  · exact h1 hc
  · exact h2 hc

/-- C8: the completeness check's missing set is the source-minus-output
difference of relative media paths discovered by the same rule in both roots,
and after a full apply-mode run without the skip-no-json option in which
every copy succeeds (roots not nested in one another), that missing set is
empty and verify_output reports success. -/
theorem C8_completeness (env : Env) (fs0 : List FSFile) (sroot oroot : List String)
    (hcopy : ∀ p, env.copyOk p = true)
    (h1 : ¬ sroot <+: oroot) (h2 : ¬ oroot <+: sroot) :
    missing_rels (run_takeout env sroot oroot false false fs0).fs sroot oroot = [] ∧
    (discover_media_files fs0 sroot ≠ [] →
      verify_output (run_takeout env sroot oroot false false fs0).fs sroot oroot =
        (true, [])) := by
  have hrt : run_takeout env sroot oroot false false fs0 =
      run_files env sroot oroot false false
        { fs := fs0, stats := { total_files := (discover_media_files fs0 sroot).length } }
        (discover_media_files fs0 sroot) := rfl
  have hmain : ∀ p ∈ discover_media_files
      (run_takeout env sroot oroot false false fs0).fs sroot,
      FPath.mk (p.dir.drop sroot.length) p.name ∈
        (discover_media_files (run_takeout env sroot oroot false false fs0).fs oroot).map
          (fun p => FPath.mk (p.dir.drop oroot.length) p.name) := by
    intro p hp
    rw [mem_discover] at hp
    obtain ⟨hpath, hpre, hmed⟩ := hp
    have hsrc : HasPath fs0 p := by
      rw [hrt] at hpath
      rcases run_files_rev env sroot oroot false false _ _ p hpath with h | ⟨f, hf, rfl⟩
      · exact h
      · exact absurd hpre (not_source_under_out h1 h2 _)
    have hpfiles : p ∈ discover_media_files fs0 sroot :=
      mem_discover.mpr ⟨hsrc, hpre, hmed⟩
    have hout : HasPath (run_takeout env sroot oroot false false fs0).fs
        (outPath sroot oroot p) := by
      rw [hrt]
      exact run_files_copies env sroot oroot _ _ hcopy p hpfiles
    have houtmem : outPath sroot oroot p ∈
        discover_media_files (run_takeout env sroot oroot false false fs0).fs oroot := by
      rw [mem_discover]
      exact ⟨hout, isPrefixOfIff.mpr (List.prefix_append _ _), hmed⟩
    rw [List.mem_map]
    refine ⟨outPath sroot oroot p, houtmem, ?_⟩
    unfold outPath
    rw [List.drop_left]
  have hmiss : missing_rels (run_takeout env sroot oroot false false fs0).fs
      sroot oroot = [] := by
    unfold missing_rels
    rw [List.filter_eq_nil_iff]
    intro r hr
    rw [List.mem_map] at hr
    obtain ⟨p, hp, rfl⟩ := hr
    have hm := hmain p hp
    simp only [decide_eq_true_eq]
    exact fun hno => hno hm
  refine ⟨hmiss, fun hne => ?_⟩
  obtain ⟨p, hp⟩ := List.exists_mem_of_ne_nil _ hne
  have hout : HasPath (run_takeout env sroot oroot false false fs0).fs
      (outPath sroot oroot p) := by
    rw [hrt]
    exact run_files_copies env sroot oroot _ _ hcopy p hp
  have hdir : dirHolds (run_takeout env sroot oroot false false fs0).fs oroot = true := by
    obtain ⟨f, hf, hfp⟩ := hout
    unfold dirHolds
    rw [List.any_eq_true]
    refine ⟨f, hf, ?_⟩
    rw [hfp]
    exact isPrefixOfIff.mpr (List.prefix_append _ _)
  unfold verify_output
  rw [hdir, hmiss]
  simp

/-- Witness for C8 at a one-file source tree with disjoint roots. -/
theorem C8_witness :
    ((∀ p : FPath, oneEnv.copyOk p = true) ∧
     ¬ ["s"] <+: ["o"] ∧ ¬ ["o"] <+: ["s"]) ∧
    (missing_rels (run_takeout oneEnv ["s"] ["o"] false false oneFs).fs ["s"] ["o"] = [] ∧
     (discover_media_files oneFs ["s"] ≠ [] →
       verify_output (run_takeout oneEnv ["s"] ["o"] false false oneFs).fs ["s"] ["o"] =
         (true, []))) :=
  ⟨⟨fun _ => rfl, by decide, by decide⟩,
   C8_completeness oneEnv oneFs ["s"] ["o"] (fun _ => rfl) (by decide) (by decide)⟩

theorem metadata_step_dry (env : Env) (out : FPath) (st : RunState)
    (md : ExtractedMetadata) :
    (metadata_step env out true st md).1.fs = st.fs ∧
    (metadata_step env out true st md).1.executed = st.executed ∧
    (metadata_step env out true st md).1.recorded = st.recorded ++
      (if md.nonEmpty then
        [build_exiftool_command env.exiftool_path (fpathStr out) md
          (apply_is_video (pySuffix out.name))]
       else []) := by
  unfold metadata_step
  by_cases hne : md.nonEmpty = true
  · rw [if_pos hne, if_pos hne, apply_metadata_executed_dry]
    dsimp only
    refine ⟨?_, ?_, ?_⟩ <;> (split <;> rfl)
  · rw [if_neg hne, if_neg hne]
    exact ⟨rfl, rfl, by simp⟩

theorem metadata_step_apply_executed (env : Env) (out : FPath) (st : RunState)
    (md : ExtractedMetadata) :
    (metadata_step env out false st md).1.executed = st.executed ++
      (if md.nonEmpty then
        [build_exiftool_command env.exiftool_path (fpathStr out) md
          (apply_is_video (pySuffix out.name))]
       else []) := by
  unfold metadata_step
  by_cases hne : md.nonEmpty = true
  · rw [if_pos hne, if_pos hne]
    rcases happ : apply_metadata env st out md false with ⟨st2, b⟩
    have hex := apply_metadata_executed env st out md
    rw [happ] at hex
    cases b
    · exact hex
    · dsimp only
      split <;> exact hex
  · rw [if_neg hne, if_neg hne]
    simp

theorem rest_dry (env : Env) (sf out : FPath) (st : RunState) (md : ExtractedMetadata) :
    (process_file_rest env sf out true st md).1.fs = st.fs ∧
    (process_file_rest env sf out true st md).1.executed = st.executed ∧
    (process_file_rest env sf out true st md).1.recorded = st.recorded ++
      (if md.nonEmpty then
        [build_exiftool_command env.exiftool_path (fpathStr out) md
          (apply_is_video (pySuffix out.name))]
       else []) := by
  unfold process_file_rest
  have hc : ¬ ((true : Bool) = false ∧ env.copyOk sf = false) := by simp
  rw [if_neg hc, if_pos rfl]
  exact metadata_step_dry env out st md

theorem rest_apply_executed (env : Env) (sf out : FPath) (st : RunState)
    (md : ExtractedMetadata) (hcopy : env.copyOk sf = true) :
    (process_file_rest env sf out false st md).1.executed = st.executed ++
      (if md.nonEmpty then
        [build_exiftool_command env.exiftool_path (fpathStr out) md
          (apply_is_video (pySuffix out.name))]
       else []) := by
  unfold process_file_rest
  rw [hcopy]
  have hc : ¬ ((false : Bool) = false ∧ (true : Bool) = false) := by simp
  rw [if_neg hc]
  have hd : ¬ ((false : Bool) = true) := by simp
  rw [if_neg hd]
  exact metadata_step_apply_executed env out { st with fs := copy2 st.fs sf out } md

theorem process_file_dry_parts (env : Env) (sf : FPath) (sroot oroot : List String)
    (skip : Bool) (st : RunState) :
    (process_file env sf sroot oroot true skip st).1.fs = st.fs ∧
    (process_file env sf sroot oroot true skip st).1.executed = st.executed ∧
    (process_file env sf sroot oroot true skip st).1.recorded =
      st.recorded ++ planned_cmds env sf sroot oroot := by
  unfold process_file planned_cmds
  cases hj : find_json_for_media env sf with
  | some pr =>
    rcases pr with ⟨jname, j⟩
    have h := rest_dry env sf (outPath sroot oroot sf)
      (addErrors
        { st with stats := { st.stats with with_json := st.stats.with_json + 1 } }
        (extract_metadata jname j).2)
      (extract_metadata jname j).1
    exact ⟨h.1, h.2.1, h.2.2⟩
  | none =>
    cases skip
    · have h := rest_dry env sf (outPath sroot oroot sf)
        { st with stats := { st.stats with without_json := st.stats.without_json + 1 } }
        {}
      exact ⟨h.1, h.2.1, h.2.2⟩
    · exact ⟨rfl, rfl, by simp⟩

theorem process_file_apply_executed (env : Env) (sf : FPath)
    (sroot oroot : List String) (skip : Bool) (st : RunState)
    (hcopy : env.copyOk sf = true) :
    (process_file env sf sroot oroot false skip st).1.executed =
      st.executed ++ planned_cmds env sf sroot oroot := by
  unfold process_file planned_cmds
  cases hj : find_json_for_media env sf with
  | some pr =>
    rcases pr with ⟨jname, j⟩
    exact rest_apply_executed env sf (outPath sroot oroot sf)
      (addErrors
        { st with stats := { st.stats with with_json := st.stats.with_json + 1 } }
        (extract_metadata jname j).2)
      (extract_metadata jname j).1 hcopy
  | none =>
    cases skip
    · exact rest_apply_executed env sf (outPath sroot oroot sf)
        { st with stats := { st.stats with without_json := st.stats.without_json + 1 } }
        {} hcopy
    · exact (List.append_nil _).symm

/-- C9: processing a file in preview (dry-run) mode performs no filesystem
mutation — the file list, including every modification time, is left exactly
as it was — and executes no tool invocation, while the command it records is
identical to the one apply mode would execute for the same inputs (when the
copy apply mode performs succeeds). -/
theorem C9_preview_no_mutation (env : Env) (sf : FPath) (sroot oroot : List String)
    (skip : Bool) (st : RunState) (hcopy : env.copyOk sf = true) :
    (process_file env sf sroot oroot true skip st).1.fs = st.fs ∧
    (process_file env sf sroot oroot true skip st).1.executed = st.executed ∧
    (process_file env sf sroot oroot true skip st).1.recorded =
      st.recorded ++ planned_cmds env sf sroot oroot ∧
    (process_file env sf sroot oroot false skip st).1.executed =
      st.executed ++ planned_cmds env sf sroot oroot := by
  obtain ⟨h1, h2, h3⟩ := process_file_dry_parts env sf sroot oroot skip st
  exact ⟨h1, h2, h3, process_file_apply_executed env sf sroot oroot skip st hcopy⟩

/-- Witness for C9 at the first file of the ten-file scenario. -/
theorem C9_witness :
    tenEnv.copyOk ⟨["src"], "p0.jpg"⟩ = true ∧
    ((process_file tenEnv ⟨["src"], "p0.jpg"⟩ ["src"] ["out"] true false
        { fs := tenFs, stats := { total_files := 10 } }).1.fs = tenFs ∧
     (process_file tenEnv ⟨["src"], "p0.jpg"⟩ ["src"] ["out"] true false
        { fs := tenFs, stats := { total_files := 10 } }).1.executed = [] ∧
     (process_file tenEnv ⟨["src"], "p0.jpg"⟩ ["src"] ["out"] true false
        { fs := tenFs, stats := { total_files := 10 } }).1.recorded =
       [] ++ planned_cmds tenEnv ⟨["src"], "p0.jpg"⟩ ["src"] ["out"] ∧
     (process_file tenEnv ⟨["src"], "p0.jpg"⟩ ["src"] ["out"] false false
        { fs := tenFs, stats := { total_files := 10 } }).1.executed =
       [] ++ planned_cmds tenEnv ⟨["src"], "p0.jpg"⟩ ["src"] ["out"]) :=
  ⟨by decide,
   C9_preview_no_mutation tenEnv ⟨["src"], "p0.jpg"⟩ ["src"] ["out"] false
     { fs := tenFs, stats := { total_files := 10 } } (by decide)⟩
